import Mathlib

/-!
Shallow embedding of the systemd D-Bus client in
`plugins/module_utils/systemd.py` (class `SystemdClient` and its module-level
helpers), together with proofs of the specification's claims about it.

Modelling conventions:
* Python exceptions become `Except` values; a raw `DBusException` is modelled
  by `DBusErr` (its D-Bus error name as returned by `get_dbus_name()`, plus a
  message), and the typed taxonomy `SystemdError` mirrors the exception
  classes of the source.
* The remote systemd manager is modelled by an oracle record `Bus` giving the
  outcome of each D-Bus call the embedded code performs.  Property reads that
  the code performs after the polling loop finished are reads of the unit's
  *final* state, so a single static `Bus` snapshot models them.
* The compiled regex patterns of `match_units` enter only through
  `any(r.search(name) for r in rx)`; that whole test is abstracted as an
  arbitrary boolean predicate `matchesAny : String → Bool` on unit names.
* Python dict comprehensions overwrite on duplicate keys, so dictionary
  lookup is modelled as "last entry wins" (`List.getLast?` over the filtered
  entry list).
-/

namespace Systemd

/-- D-Bus exception as visible to the client: `get_dbus_name()` and message. -/
structure DBusErr where
  name : String
  msg : String
deriving DecidableEq

/-- The typed error taxonomy (subclasses of `SystemdError` in the source). -/
inductive SystemdError where
  | unitNotFoundError (msg : String)
  | accessDeniedError (msg : String)
  | jobFailedError (msg : String)
  | dbusIOError (msg : String)
deriving DecidableEq

/-- `_map_dbus_error(e, ctx)`: map a raw D-Bus fault to the typed taxonomy. -/
def map_dbus_error (e : DBusErr) (ctx : String) : SystemdError :=
  let msg := if ctx = "" then e.msg else ctx ++ ": " ++ e.msg
  if e.name = "org.freedesktop.systemd1.NoSuchUnit" ∨
     e.name = "org.freedesktop.DBus.Error.UnknownObject" then
    .unitNotFoundError msg
  else if e.name = "org.freedesktop.DBus.Error.AccessDenied" then
    .accessDeniedError msg
  else if e.name = "org.freedesktop.systemd1.JobFailed" then
    .jobFailedError msg
  else
    .dbusIOError msg

/-- Classifier: is this error a `UnitNotFoundError`? -/
def SystemdError.isUnitNotFound : SystemdError → Bool
  | .unitNotFoundError _ => true
  | _ => false

/-- Classifier: is this error an `AccessDeniedError`? -/
def SystemdError.isAccessDenied : SystemdError → Bool
  | .accessDeniedError _ => true
  | _ => false

/-- Classifier: is this error a `JobFailedError`? -/
def SystemdError.isJobFailed : SystemdError → Bool
  | .jobFailedError _ => true
  | _ => false

/-- Classifier: is this error a `DBusIOError` (transport error)? -/
def SystemdError.isTransportErr : SystemdError → Bool
  | .dbusIOError _ => true
  | _ => false

deriving instance DecidableEq for Except

/-- `ENABLED_STATES` from the source. -/
def ENABLED_STATES : List String :=
  ["enabled", "enabled-runtime", "linked", "linked-runtime", "alias"]

/-- `MASKED_STATES` from the source. -/
def MASKED_STATES : List String :=
  ["masked", "masked-runtime"]

/-- The characters after the last occurrence of `c`: the last component of a
split at `c` (empty when `l` ends in `c`). -/
def after_last (c : Char) (l : List Char) : List Char :=
  l.foldl (fun acc ch => if ch = c then [] else acc ++ [ch]) []

/-- `_basename_or_name(s)`: basename of a path (`os.path.basename`, the part
after the last slash), or `s` itself when it contains no slash. -/
def basename_or_name (s : String) : String :=
  if s.data.contains '/' then ⟨after_last '/' s.data⟩ else s

/-- `_kind_from_name(name)`: the unit-type suffix `name.split(".")[-1]`
(`"ssh.service" → "service"`), or `""` when the name contains no dot. -/
def kind_from_name (name : String) : String :=
  if name.data.contains '.' then ⟨after_last '.' name.data⟩ else ""

/-- One row of `Manager.ListUnits()` (dataclass `Unit`). -/
structure Unit where
  name : String
  description : String
  load_state : String
  active_state : String
  sub_state : String
  followed : String
  object_path : String
  job_id : Int
  job_type : String
  job_path : String
deriving DecidableEq

/-- One row of `Manager.ListUnitFiles()` (dataclass `UnitFile`). -/
structure UnitFile where
  path : String
  state : String
deriving DecidableEq

/-- Merged runtime/install view (dataclass `UnitStatus`). -/
structure UnitStatus where
  name : String
  kind : String
  description : String
  active_state : String
  sub_state : String
  unit_file_state : Option String
  load_state : Option String
  is_enabled : Bool
  is_masked : Bool
deriving DecidableEq

/-- Filter applied to live units in `match_units`: kind in `type_set` and the
name matchesAny some pattern. -/
def live_keep (type_set : List String) (matchesAny : String → Bool) (u : Unit) : Bool :=
  type_set.contains (kind_from_name u.name) && matchesAny u.name

/-- Filter applied to a unit-file-derived name in `match_units`. -/
def file_keep (type_set : List String) (matchesAny : String → Bool) (name : String) : Bool :=
  type_set.contains (kind_from_name name) && matchesAny name

/-- Lookup in the Python dict `live` (comprehension keyed on `u.name`, later
entries overwrite earlier ones). -/
def dict_get_unit (liveFiltered : List Unit) (name : String) : Option Unit :=
  (liveFiltered.filter (fun u => decide (u.name = name))).getLast?

/-- Lookup in the Python dict `file_state_by_name` (last write wins). -/
def dict_get_state (entries : List (String × String)) (name : String) : Option String :=
  ((entries.filter (fun e => decide (e.1 = name))).getLast?).map Prod.snd

/-- Python `str.lower()` (chosen over `String.toLower` for kernel
computability; identical character-by-character lowering). -/
def str_lower (s : String) : String := ⟨s.data.map Char.toLower⟩

/-- `(file_state_by_name.get(name) or "").lower() or None` from the source. -/
def norm_file_state (raw : Option String) : Option String :=
  match raw with
  | none => none
  | some s => if str_lower s = "" then none else some (str_lower s)

/-- Python `a < b` on strings: strict lexicographic order on code points.
This coincides with Mathlib's `<` on `String` (proved below) but is written
on the character lists so that it evaluates inside the kernel. -/
def py_str_lt (a b : String) : Bool := decide (a.data < b.data)

/-- Python `a <= b` on strings, the order used by `sorted`. -/
def py_str_le (a b : String) : Bool := decide (a = b) || py_str_lt a b

/-- `is_masked = file_state in MASKED_STATES` (a `None` state is in no set). -/
def masked_flag (file_state : Option String) : Bool :=
  match file_state with
  | some s => MASKED_STATES.contains s
  | none => false

/-- `is_enabled = (file_state in ENABLED_STATES) and not is_masked`. -/
def enabled_flag (file_state : Option String) : Bool :=
  (match file_state with
   | some s => ENABLED_STATES.contains s
   | none => false) && !masked_flag file_state

/-- The body of `match_units`'s output loop for one name. -/
def emit_status (liveFiltered : List Unit) (fileEntries : List (String × String))
    (name : String) : UnitStatus :=
  let file_state := norm_file_state (dict_get_state fileEntries name)
  let is_masked := masked_flag file_state
  let is_enabled := enabled_flag file_state
  match dict_get_unit liveFiltered name with
  | some u =>
    { name := name, kind := kind_from_name name, description := u.description,
      active_state := u.active_state, sub_state := u.sub_state,
      unit_file_state := file_state, load_state := some u.load_state,
      is_enabled := is_enabled, is_masked := is_masked }
  | none =>
    { name := name, kind := kind_from_name name, description := "",
      active_state := "inactive", sub_state := "dead",
      unit_file_state := file_state, load_state := none,
      is_enabled := is_enabled, is_masked := is_masked }

/-- The pattern/type-filtered live units (`live` dict, in insertion order). -/
def live_filtered (units : List Unit) (type_set : List String)
    (matchesAny : String → Bool) : List Unit :=
  units.filter (live_keep type_set matchesAny)

/-- The pattern/type-filtered `(name, state)` pairs derived from unit files. -/
def file_entries (files : List UnitFile) (type_set : List String)
    (matchesAny : String → Bool) (include_inactive_files : Bool) :
    List (String × String) :=
  (if include_inactive_files then files else []).filterMap fun f =>
    let name := basename_or_name f.path
    if file_keep type_set matchesAny name then some (name, f.state) else none

/-- `sorted(set(live.keys()) | candidates_from_files)` from the source. -/
def merged_names (liveFiltered : List Unit) (fileEntries : List (String × String)) :
    List String :=
  List.insertionSort (fun a b => py_str_le a b = true)
    ((liveFiltered.map Unit.name ++ fileEntries.map Prod.fst).dedup)

/-- `SystemdClient.match_units`, with the two listing calls and the compiled
pattern test supplied as inputs (`units` ≘ `ListUnits()` rows, `files` ≘
`ListUnitFiles()` rows, `matchesAny` ≘ `any(r.search(name) for r in rx)`). -/
def match_units (units : List Unit) (files : List UnitFile)
    (matchesAny : String → Bool) (type_set : List String)
    (include_inactive_files : Bool) : List UnitStatus :=
  let liveFiltered := live_filtered units type_set matchesAny
  let fileEntries := file_entries files type_set matchesAny include_inactive_files
  (merged_names liveFiltered fileEntries).map (emit_status liveFiltered fileEntries)

/-- A Python value converted from a bus value by `_py` (only the shapes the
embedded operations consume: strings and integers). -/
inductive PyVal where
  | s (v : String)
  | i (v : Int)
deriving DecidableEq

/-- Python `str()` applied to a converted bus value. -/
def PyVal.toStr : PyVal → String
  | .s v => v
  | .i v => toString v

/-- Python `int()` applied to a converted bus value.  `ExecMainStatus` is
typed `int32` on the bus, so for well-typed bus values the string case never
arises (Python `int()` of a non-numeric string raises); it is mapped to 0 and
never relied upon. -/
def PyVal.toInt : PyVal → Int
  | .s _ => 0
  | .i v => v

/-- Oracle for the remote systemd manager: outcome of each D-Bus call the
embedded client code performs against the (post-loop) manager state. -/
structure Bus where
  getUnit : String → Except DBusErr String
  loadUnit : String → Except DBusErr String
  unitProp : String → String → Except DBusErr String
  serviceProp : String → String → Except DBusErr PyVal

/-- `SystemdClient._get_unit_path`: `GetUnit`, falling back to `LoadUnit`;
when both fail, raise the error mapped from the second fault. -/
def get_unit_path (bus : Bus) (unit : String) : Except SystemdError String :=
  match bus.getUnit unit with
  | .ok p => .ok p
  | .error _ =>
    match bus.loadUnit unit with
    | .ok p => .ok p
    | .error e2 => .error (map_dbus_error e2 ("LoadUnit(" ++ unit ++ ")"))

/-- `SystemdClient.ensure_loaded`: same `GetUnit`-then-`LoadUnit` sequence as
`_get_unit_path` (the source duplicates the body). -/
def ensure_loaded (bus : Bus) (unit : String) : Except SystemdError String :=
  match bus.getUnit unit with
  | .ok p => .ok p
  | .error _ =>
    match bus.loadUnit unit with
    | .ok p => .ok p
    | .error e => .error (map_dbus_error e ("LoadUnit(" ++ unit ++ ")"))

/-- `SystemdClient._get_unit_prop_str`: resolve the unit's path (the
`_unit_props_cache` only caches proxy objects, not values, so every call still
resolves the path and reads the property from the bus), then read the property
on the unit interface, mapping a fault. -/
def get_unit_prop_str (bus : Bus) (unit : String) (prop : String) :
    Except SystemdError String :=
  match get_unit_path bus unit with
  | .error e => .error e
  | .ok path =>
    match bus.unitProp path prop with
    | .ok v => .ok v
    | .error e => .error (map_dbus_error e ("Get(" ++ unit ++ "," ++ prop ++ ")"))

/-- `SystemdClient.active_state(unit, default=...)`: read `ActiveState`,
substituting `default` only for `UnitNotFoundError`. -/
def active_state (bus : Bus) (unit : String) (default : Option String) :
    Except SystemdError String :=
  match get_unit_prop_str bus unit "ActiveState" with
  | .ok v => .ok v
  | .error e =>
    match e, default with
    | .unitNotFoundError _, some d => .ok d
    | _, _ => .error e

/-- `SystemdClient.is_active(unit)`: `active_state(unit, default="inactive")
== "active"`. -/
def is_active (bus : Bus) (unit : String) : Except SystemdError Bool :=
  match active_state bus unit (some "inactive") with
  | .ok v => .ok (decide (v = "active"))
  | .error e => .error e

/-- `SystemdClient.get_service_properties(unit, keys)`: resolve the path
(faults propagate), then collect the requested service-interface properties,
silently omitting any whose read fails. -/
def get_service_properties (bus : Bus) (unit : String) (keys : List String) :
    Except SystemdError (List (String × PyVal)) :=
  match get_unit_path bus unit with
  | .error e => .error e
  | .ok path =>
    .ok (keys.foldl (fun acc k =>
      match bus.serviceProp path k with
      | .ok v => acc ++ [(k, v)]
      | .error _ => acc) [])

/-- Python `sp.get(k, d)` on the dict built by `get_service_properties` (its
keys are distinct, so first match equals the dict entry). -/
def props_get (sp : List (String × PyVal)) (k : String) (d : PyVal) : PyVal :=
  match sp.find? (fun e => e.1 == k) with
  | some e => e.2
  | none => d

/-- Environment of one `wait_job_poll` call: the initial job property reads
and, for each poll iteration `i`, the outcome of reading the job's `State`
property and whether `time.monotonic() >= deadline` held at the top of that
iteration (meaningful only when a deadline exists). -/
structure JobWorld where
  jobType : Except DBusErr String
  jobUnit : Except DBusErr String
  statePoll : Nat → Except DBusErr String
  deadlineHit : Nat → Bool

/-- The two fault names `wait_job_poll` treats as "the job object is gone". -/
def job_gone_names : List String :=
  ["org.freedesktop.DBus.Error.UnknownObject", "org.freedesktop.systemd1.NoSuchJob"]

/-- How the polling loop of `wait_job_poll` exited.  `spin` means the fuel ran
out before it exited, i.e. the real loop would still be running. -/
inductive LoopExit where
  | timeout
  | finished
  | fault (e : SystemdError)
  | spin
deriving DecidableEq

/-- The `while True` loop of `wait_job_poll`: per iteration, first the
deadline check, then one read of the job's `State` property — success means
the job still exists (sleep and retry), a fault named in `job_gone_names`
means the job finished, any other fault is mapped and raised. -/
def poll_loop (jw : JobWorld) (hasDeadline : Bool) (job_path : String) :
    Nat → Nat → LoopExit
  | 0, _ => .spin
  | fuel + 1, i =>
    if hasDeadline && jw.deadlineHit i then .timeout
    else
      match jw.statePoll i with
      | .ok _ => poll_loop jw hasDeadline job_path fuel (i + 1)
      | .error e =>
        if job_gone_names.contains e.name then .finished
        else .fault (map_dbus_error e ("JobPoll(" ++ job_path ++ ")"))

/-- The `try: st = self.active_state(unit, default="inactive") except
SystemdError: st = "failed"` step of `wait_job_poll`: every typed error from
the final-state read is swallowed and replaced by `"failed"`. -/
def final_state (bus : Bus) (unit : String) : String :=
  match active_state bus unit (some "inactive") with
  | .ok v => v
  | .error _ => "failed"

/-- The post-loop heuristic of `wait_job_poll` deciding `ok`.  Faults raised
by `get_service_properties` (path resolution) propagate. -/
def wait_eval (bus : Bus) (job_type unit_name : String) :
    Except SystemdError Bool :=
  let st := final_state bus unit_name
  if job_type == "stop" then
    .ok (st == "inactive" || st == "failed")
  else if st == "active" then
    .ok true
  else
    match get_service_properties bus unit_name ["Type", "ExecMainStatus"] with
    | .error e => .error e
    | .ok sp =>
      if (props_get sp "Type" (.s "")).toStr == "oneshot" then
        .ok ((props_get sp "ExecMainStatus" (.i 0)).toInt == 0)
      else if st != "failed" then
        .ok true
      else
        .ok false

/-- `SystemdClient.wait_job_poll`.  `hasDeadline` is the truthiness of
`timeout_sec`; `fuel` bounds the number of loop iterations modelled, `none`
meaning the real loop would still be polling after `fuel` iterations. -/
def wait_job_poll (bus : Bus) (jw : JobWorld) (job_path : String)
    (hasDeadline : Bool) (raise_on_fail : Bool) (fuel : Nat) :
    Option (Except SystemdError String) :=
  match jw.jobType with
  | .error e => some (.error (map_dbus_error e ("JobProps(" ++ job_path ++ ")")))
  | .ok job_type =>
    match jw.jobUnit with
    | .error e => some (.error (map_dbus_error e ("JobProps(" ++ job_path ++ ")")))
    | .ok unit_name =>
      match poll_loop jw hasDeadline job_path fuel 0 with
      | .spin => none
      | .timeout =>
        some (if raise_on_fail then
          .error (.jobFailedError ("job " ++ job_path ++ " result=timeout-wait"))
        else
          .ok "timeout-wait")
      | .fault e => some (.error e)
      | .finished =>
        some (match wait_eval bus job_type unit_name with
          | .error e => .error e
          | .ok true => .ok "done"
          | .ok false =>
            if raise_on_fail then
              .error (.jobFailedError ("job " ++ job_path ++ " result=failed"))
            else
              .ok "failed")

/-- Result handling at the end of `SystemdClient.wait_job` (signal strategy):
`signal_result` is `result_holder["result"]` when the GLib loop exits
(`none`/empty string falls back to `"failed"` via Python `or`). -/
def wait_job_result (signal_result : Option String) (job_path : String)
    (raise_on_fail : Bool) : Except SystemdError String :=
  let result :=
    match signal_result with
    | some r => if r = "" then "failed" else r
    | none => "failed"
  if result = "timeout-wait" then
    if raise_on_fail then
      .error (.jobFailedError ("job " ++ job_path ++ " result=timeout-wait"))
    else
      .ok "timeout-wait"
  else if result ≠ "done" then
    if raise_on_fail then
      .error (.jobFailedError ("job " ++ job_path ++ " result=" ++ result))
    else
      .ok "failed"
  else
    .ok "done"

/-!  Concrete fixtures used by witnesses and counterexamples.  -/

/-- Bus whose `GetUnit` faults with a transport error and whose `LoadUnit` is
denied by PolicyKit. -/
def deniedLoadBus : Bus where
  getUnit := fun _ => .error { name := "org.freedesktop.DBus.Error.NoReply", msg := "timeout" }
  loadUnit := fun _ => .error { name := "org.freedesktop.DBus.Error.AccessDenied", msg := "denied" }
  unitProp := fun _ _ => .error { name := "", msg := "" }
  serviceProp := fun _ _ => .error { name := "", msg := "" }

/-- Bus on which the unit is unknown: both resolutions report `NoSuchUnit`. -/
def missingUnitBus : Bus where
  getUnit := fun _ => .error { name := "org.freedesktop.systemd1.NoSuchUnit", msg := "nsu" }
  loadUnit := fun _ => .error { name := "org.freedesktop.systemd1.NoSuchUnit", msg := "nsu" }
  unitProp := fun _ _ => .error { name := "", msg := "" }
  serviceProp := fun _ _ => .error { name := "", msg := "" }

/-- Bus on which every call fails with a raw transport fault. -/
def transportBus : Bus where
  getUnit := fun _ => .error { name := "org.freedesktop.DBus.Error.NoReply", msg := "no reply" }
  loadUnit := fun _ => .error { name := "org.freedesktop.DBus.Error.NoReply", msg := "no reply" }
  unitProp := fun _ _ => .error { name := "org.freedesktop.DBus.Error.NoReply", msg := "no reply" }
  serviceProp := fun _ _ => .error { name := "org.freedesktop.DBus.Error.NoReply", msg := "no reply" }

/-- Bus with one loaded unit at path `"/u"` whose `ActiveState` is `active`. -/
def activeUnitBus : Bus where
  getUnit := fun _ => .ok "/u"
  loadUnit := fun _ => .ok "/u"
  unitProp := fun _ p => if p = "ActiveState" then .ok "active" else .error { name := "", msg := "" }
  serviceProp := fun _ _ => .error { name := "", msg := "" }

/-- Bus with an inactive oneshot service whose recorded exit status is `code`. -/
def oneshotBus (code : Int) : Bus where
  getUnit := fun _ => .ok "/u"
  loadUnit := fun _ => .ok "/u"
  unitProp := fun _ p => if p = "ActiveState" then .ok "inactive" else .error { name := "", msg := "" }
  serviceProp := fun _ k =>
    if k = "Type" then .ok (.s "oneshot")
    else if k = "ExecMainStatus" then .ok (.i code)
    else .error { name := "", msg := "" }

/-- Job environment for a job of type `jt` that vanishes on the first poll. -/
def vanishingJob (jt : String) : JobWorld where
  jobType := .ok jt
  jobUnit := .ok "a.service"
  statePoll := fun _ => .error { name := "org.freedesktop.DBus.Error.UnknownObject", msg := "gone" }
  deadlineHit := fun _ => false

/-- Job environment that never completes and whose deadline has passed. -/
def stuckJob : JobWorld where
  jobType := .ok "start"
  jobUnit := .ok "a.service"
  statePoll := fun _ => .ok "running"
  deadlineHit := fun _ => true

/-- Job environment whose poll read faults with a transport error. -/
def faultingJob : JobWorld where
  jobType := .ok "start"
  jobUnit := .ok "a.service"
  statePoll := fun _ => .error { name := "org.freedesktop.DBus.Error.NoReply", msg := "lost" }
  deadlineHit := fun _ => false

/-!  Theorems.  -/

/-- The name field of an emitted status is the name it was emitted for. -/
theorem emit_status_name (lf : List Unit) (fe : List (String × String)) (n : String) :
    (emit_status lf fe n).name = n := by
  unfold emit_status
  cases dict_get_unit lf n <;> rfl

/-- Both branches of `emit_status` carry the derived install flags. -/
theorem emit_status_flags (lf : List Unit) (fe : List (String × String)) (n : String) :
    (emit_status lf fe n).is_masked = masked_flag (norm_file_state (dict_get_state fe n)) ∧
    (emit_status lf fe n).is_enabled = enabled_flag (norm_file_state (dict_get_state fe n)) := by
  unfold emit_status
  cases dict_get_unit lf n <;> exact ⟨rfl, rfl⟩

/-- A masked file state is never an enabled one. -/
theorem enabled_flag_of_masked (fs : Option String) (h : masked_flag fs = true) :
    enabled_flag fs = false := by
  unfold enabled_flag
  rw [h]
  simp

/-- C9: `_map_dbus_error` is a pure total function onto the four error types:
the unknown-unit and unknown-object identifiers map to `UnitNotFoundError`,
the access-denied identifier to `AccessDeniedError`, the job-failed
identifier to `JobFailedError`, and every other identifier — the empty,
unmapped case included — to the transport type `DBusIOError`. -/
theorem map_dbus_error_classification (e : DBusErr) (ctx : String) :
    ((map_dbus_error e ctx).isUnitNotFound = true ↔
       (e.name = "org.freedesktop.systemd1.NoSuchUnit" ∨
        e.name = "org.freedesktop.DBus.Error.UnknownObject")) ∧
    ((map_dbus_error e ctx).isAccessDenied = true ↔
       e.name = "org.freedesktop.DBus.Error.AccessDenied") ∧
    ((map_dbus_error e ctx).isJobFailed = true ↔
       e.name = "org.freedesktop.systemd1.JobFailed") ∧
    ((map_dbus_error e ctx).isTransportErr = true ↔
       (e.name ≠ "org.freedesktop.systemd1.NoSuchUnit" ∧
        e.name ≠ "org.freedesktop.DBus.Error.UnknownObject" ∧
        e.name ≠ "org.freedesktop.DBus.Error.AccessDenied" ∧
        e.name ≠ "org.freedesktop.systemd1.JobFailed")) := by
  simp only [map_dbus_error]
  by_cases h1 : e.name = "org.freedesktop.systemd1.NoSuchUnit" ∨
      e.name = "org.freedesktop.DBus.Error.UnknownObject"
  · rw [if_pos h1]
    refine ⟨iff_of_true rfl h1,
      iff_of_false (by simp [SystemdError.isAccessDenied]) ?_,
      iff_of_false (by simp [SystemdError.isJobFailed]) ?_,
      iff_of_false (by simp [SystemdError.isTransportErr]) ?_⟩
    · rcases h1 with h | h <;> rw [h] <;> decide
    · rcases h1 with h | h <;> rw [h] <;> decide
    · rintro ⟨a, b, -, -⟩
      rcases h1 with h | h
      · exact a h
      · exact b h
  · rw [if_neg h1]
    by_cases h2 : e.name = "org.freedesktop.DBus.Error.AccessDenied"
    · rw [if_pos h2]
      refine ⟨iff_of_false (by simp [SystemdError.isUnitNotFound]) h1,
        iff_of_true rfl h2,
        iff_of_false (by simp [SystemdError.isJobFailed]) ?_,
        iff_of_false (by simp [SystemdError.isTransportErr]) ?_⟩
      · rw [h2]; decide
      · rintro ⟨-, -, c, -⟩
        exact c h2
    · rw [if_neg h2]
      by_cases h3 : e.name = "org.freedesktop.systemd1.JobFailed"
      · rw [if_pos h3]
        refine ⟨iff_of_false (by simp [SystemdError.isUnitNotFound]) h1,
          iff_of_false (by simp [SystemdError.isAccessDenied]) h2,
          iff_of_true rfl h3,
          iff_of_false (by simp [SystemdError.isTransportErr]) ?_⟩
        rintro ⟨-, -, -, d⟩
        exact d h3
      · rw [if_neg h3]
        rcases not_or.mp h1 with ⟨ha, hb⟩
        exact ⟨iff_of_false (by simp [SystemdError.isUnitNotFound]) h1,
          iff_of_false (by simp [SystemdError.isAccessDenied]) h2,
          iff_of_false (by simp [SystemdError.isJobFailed]) h3,
          iff_of_true rfl ⟨ha, hb, h2, h3⟩⟩

/-- C5: every `UnitStatus` emitted by `match_units` with `is_masked = true`
has `is_enabled = false` (enabled-ness is membership in the enabled-state set
conjoined with not-masked). -/
theorem match_units_masked_implies_disabled (units : List Unit) (files : List UnitFile)
    (matchesAny : String → Bool) (type_set : List String) (inc : Bool) (s : UnitStatus)
    (hs : s ∈ match_units units files matchesAny type_set inc)
    (hm : s.is_masked = true) : s.is_enabled = false := by
  rcases List.mem_map.mp hs with ⟨n, _, rfl⟩
  have hflags := emit_status_flags (live_filtered units type_set matchesAny)
    (file_entries files type_set matchesAny inc) n
  rw [hflags.1] at hm
  rw [hflags.2]
  exact enabled_flag_of_masked _ hm

/-- C5 witness: a masked installed-only service is reported not enabled. -/
theorem match_units_masked_implies_disabled_witness :
    (emit_status [] [("a.service", "masked")] "a.service") ∈
      match_units [] [{ path := "/lib/systemd/system/a.service", state := "masked" }]
        (fun _ => true) ["service"] true ∧
    (emit_status [] [("a.service", "masked")] "a.service").is_masked = true ∧
    (emit_status [] [("a.service", "masked")] "a.service").is_enabled = false := by
  refine ⟨by decide, by decide, ?_⟩
  exact match_units_masked_implies_disabled
    [] [{ path := "/lib/systemd/system/a.service", state := "masked" }]
    (fun _ => true) ["service"] true _ (by decide) (by decide)

/-- C6: with a non-null default `X`, `active_state` substitutes `X` exactly
for the `UnitNotFoundError` outcome of the underlying property read; any
other fault is re-raised unchanged, and a successful read returns the unit's
`ActiveState` value. -/
theorem active_state_default_spec (bus : Bus) (unit X : String) :
    (∀ m, get_unit_prop_str bus unit "ActiveState" = .error (.unitNotFoundError m) →
      active_state bus unit (some X) = .ok X) ∧
    (∀ e, get_unit_prop_str bus unit "ActiveState" = .error e →
      e.isUnitNotFound = false → active_state bus unit (some X) = .error e) ∧
    (∀ v, get_unit_prop_str bus unit "ActiveState" = .ok v →
      active_state bus unit (some X) = .ok v) ∧
    (active_state bus unit (some X) = .ok X ↔
      ((∃ m, get_unit_prop_str bus unit "ActiveState" = .error (.unitNotFoundError m)) ∨
        get_unit_prop_str bus unit "ActiveState" = .ok X)) := by
  unfold active_state
  refine ⟨?_, ?_, ?_, ?_⟩
  · intro m h
    rw [h]
  · intro e h hne
    rw [h]
    cases e <;> simp_all [SystemdError.isUnitNotFound]
  · intro v h
    rw [h]
  · cases h : get_unit_prop_str bus unit "ActiveState" with
    | ok v => simp [eq_comm]
    | error e => cases e <;> simp

/-- C6 witness: a unit unknown to the manager reads as the default. -/
theorem active_state_default_spec_witness :
    active_state missingUnitBus "x.service" (some "unknown-default") = .ok "unknown-default" :=
  (active_state_default_spec missingUnitBus "x.service" "unknown-default").1
    "LoadUnit(x.service): nsu" (by decide)

/-- C10: `is_active` never fails with `UnitNotFoundError`: a missing unit
reads as the substituted default `"inactive"` and yields `false`, and a
successful read yields `true` exactly when `ActiveState` is `"active"`. -/
theorem is_active_spec (bus : Bus) (unit : String) :
    (∀ m, is_active bus unit ≠ .error (.unitNotFoundError m)) ∧
    (∀ m, get_unit_prop_str bus unit "ActiveState" = .error (.unitNotFoundError m) →
      is_active bus unit = .ok false) ∧
    (∀ v, get_unit_prop_str bus unit "ActiveState" = .ok v →
      is_active bus unit = .ok (decide (v = "active"))) := by
  unfold is_active active_state
  refine ⟨?_, ?_, ?_⟩
  · intro m
    cases h : get_unit_prop_str bus unit "ActiveState" with
    | ok v => simp
    | error e => cases e <;> simp
  · intro m h
    rw [h]
    simp
  · intro v h
    rw [h]

/-- C10 witness: a unit unknown to the manager is reported not active. -/
theorem is_active_spec_witness :
    get_unit_prop_str missingUnitBus "x.service" "ActiveState" =
      .error (.unitNotFoundError "LoadUnit(x.service): nsu") ∧
    is_active missingUnitBus "x.service" = .ok false :=
  ⟨by decide,
   (is_active_spec missingUnitBus "x.service").2.1 "LoadUnit(x.service): nsu" (by decide)⟩

/-- C8 (amended): `_get_unit_path` and `ensure_loaded` first try `GetUnit`,
fall back to `LoadUnit`, and when both fail raise the error mapped from the
*second* attempt's fault identifier — which is `UnitNotFoundError` exactly
when that identifier is the unknown-unit/unknown-object one. -/
theorem get_unit_path_fallback_spec (bus : Bus) (u : String) :
    (∀ p, bus.getUnit u = .ok p →
      get_unit_path bus u = .ok p ∧ ensure_loaded bus u = .ok p) ∧
    (∀ e1 p, bus.getUnit u = .error e1 → bus.loadUnit u = .ok p →
      get_unit_path bus u = .ok p ∧ ensure_loaded bus u = .ok p) ∧
    (∀ e1 e2, bus.getUnit u = .error e1 → bus.loadUnit u = .error e2 →
      get_unit_path bus u = .error (map_dbus_error e2 ("LoadUnit(" ++ u ++ ")")) ∧
      ensure_loaded bus u = .error (map_dbus_error e2 ("LoadUnit(" ++ u ++ ")")) ∧
      ((e2.name = "org.freedesktop.systemd1.NoSuchUnit" ∨
        e2.name = "org.freedesktop.DBus.Error.UnknownObject") →
        (map_dbus_error e2 ("LoadUnit(" ++ u ++ ")")).isUnitNotFound = true)) := by
  unfold get_unit_path ensure_loaded
  refine ⟨?_, ?_, ?_⟩
  · intro p h
    rw [h]
    exact ⟨rfl, rfl⟩
  · intro e1 p h1 h2
    rw [h1, h2]
    exact ⟨rfl, rfl⟩
  · intro e1 e2 h1 h2
    rw [h1, h2]
    refine ⟨rfl, rfl, ?_⟩
    intro hn
    simp only [map_dbus_error]
    rw [if_pos hn]
    rfl

/-- C8 counterexample: both resolution attempts fail, yet the reported error
is the mapped second fault — `AccessDeniedError`, not `UnitNotFoundError`. -/
theorem get_unit_path_denied_counterexample :
    deniedLoadBus.getUnit "a.service" =
      .error { name := "org.freedesktop.DBus.Error.NoReply", msg := "timeout" } ∧
    deniedLoadBus.loadUnit "a.service" =
      .error { name := "org.freedesktop.DBus.Error.AccessDenied", msg := "denied" } ∧
    get_unit_path deniedLoadBus "a.service" =
      .error (.accessDeniedError "LoadUnit(a.service): denied") ∧
    ensure_loaded deniedLoadBus "a.service" =
      .error (.accessDeniedError "LoadUnit(a.service): denied") ∧
    (SystemdError.accessDeniedError "LoadUnit(a.service): denied").isUnitNotFound = false :=
  ⟨rfl, rfl, by decide, by decide, rfl⟩

/-- C8 witness: the fallback error on a concrete denied bus. -/
theorem get_unit_path_fallback_witness :
    get_unit_path deniedLoadBus "b.service" =
      .error (map_dbus_error
        { name := "org.freedesktop.DBus.Error.AccessDenied", msg := "denied" }
        ("LoadUnit(" ++ "b.service" ++ ")")) :=
  ((get_unit_path_fallback_spec deniedLoadBus "b.service").2.2 _ _ rfl rfl).1

/-- `py_str_le` agrees with the linear order on `String`. -/
theorem py_str_le_iff (a b : String) : py_str_le a b = true ↔ a ≤ b := by
  simp only [py_str_le, py_str_lt, Bool.or_eq_true, decide_eq_true_eq]
  constructor
  · rintro (rfl | h)
    · exact le_refl a
    · exact le_of_lt (String.lt_iff_toList_lt.mpr h)
  · intro h
    rcases lt_or_eq_of_le h with h | h
    · exact Or.inr (String.lt_iff_toList_lt.mp h)
    · exact Or.inl h

/-- `py_str_le` is total. -/
theorem py_str_le_total : IsTotal String (fun a b => py_str_le a b = true) :=
  ⟨fun a b => by
    rcases le_total a b with h | h
    · exact Or.inl ((py_str_le_iff a b).mpr h)
    · exact Or.inr ((py_str_le_iff b a).mpr h)⟩

/-- `py_str_le` is transitive. -/
theorem py_str_le_trans : IsTrans String (fun a b => py_str_le a b = true) :=
  ⟨fun a b c hab hbc =>
    (py_str_le_iff a c).mpr (le_trans ((py_str_le_iff a b).mp hab) ((py_str_le_iff b c).mp hbc))⟩

/-- The merged, deduplicated name list of `match_units` is strictly sorted. -/
theorem merged_names_sorted (lf : List Unit) (fe : List (String × String)) :
    (merged_names lf fe).Pairwise (fun a b : String => a < b) := by
  have hs := @List.sorted_insertionSort String (fun a b => py_str_le a b = true) _
    py_str_le_total py_str_le_trans ((lf.map Unit.name ++ fe.map Prod.fst).dedup)
  have hnd : (merged_names lf fe).Nodup :=
    ((List.perm_insertionSort _ _).nodup_iff).mpr (List.nodup_dedup _)
  have hs' : (merged_names lf fe).Sorted (fun a b => a ≤ b) :=
    hs.imp (fun h => (py_str_le_iff _ _).mp h)
  exact List.Sorted.lt_of_le hs' hnd

/-- C1: for every pair of input listings and every pattern/type selection,
the `match_units` output is strictly ascending in the unit name — so it is
sorted and no name occurs twice, even when a name occurs in both listings. -/
theorem match_units_sorted_nodup (units : List Unit) (files : List UnitFile)
    (matchesAny : String → Bool) (type_set : List String) (inc : Bool) :
    (match_units units files matchesAny type_set inc).Pairwise
      (fun a b => a.name < b.name) := by
  unfold match_units
  rw [List.pairwise_map]
  exact (merged_names_sorted _ _).imp (fun {a b} h => by
    rw [emit_status_name, emit_status_name]
    exact h)

/-- C4: a unit name passing the pattern/type filter that is derived from an
installed unit file and has no live counterpart passing the filter is emitted
by `match_units` with `active_state = "inactive"`, `sub_state = "dead"` and
`load_state = none`. -/
theorem match_units_installed_only (units : List Unit) (files : List UnitFile)
    (matchesAny : String → Bool) (type_set : List String) (f : UnitFile) (name : String)
    (hf : f ∈ files)
    (hname : basename_or_name f.path = name)
    (hkeep : file_keep type_set matchesAny name = true)
    (hnl : ∀ u ∈ units, live_keep type_set matchesAny u = true → u.name ≠ name) :
    emit_status (live_filtered units type_set matchesAny)
        (file_entries files type_set matchesAny true) name ∈
      match_units units files matchesAny type_set true ∧
    (emit_status (live_filtered units type_set matchesAny)
        (file_entries files type_set matchesAny true) name).name = name ∧
    (emit_status (live_filtered units type_set matchesAny)
        (file_entries files type_set matchesAny true) name).active_state = "inactive" ∧
    (emit_status (live_filtered units type_set matchesAny)
        (file_entries files type_set matchesAny true) name).sub_state = "dead" ∧
    (emit_status (live_filtered units type_set matchesAny)
        (file_entries files type_set matchesAny true) name).load_state = none := by
  subst hname
  have hmem : (basename_or_name f.path, f.state) ∈
      file_entries files type_set matchesAny true :=
    List.mem_filterMap.mpr ⟨f, hf, by simp [hkeep]⟩
  have hnames : basename_or_name f.path ∈
      merged_names (live_filtered units type_set matchesAny)
        (file_entries files type_set matchesAny true) := by
    unfold merged_names
    rw [List.mem_insertionSort, List.mem_dedup]
    exact List.mem_append.mpr (Or.inr (List.mem_map.mpr ⟨_, hmem, rfl⟩))
  have hout : emit_status (live_filtered units type_set matchesAny)
      (file_entries files type_set matchesAny true) (basename_or_name f.path) ∈
      match_units units files matchesAny type_set true :=
    List.mem_map_of_mem _ hnames
  have hnone : dict_get_unit (live_filtered units type_set matchesAny)
      (basename_or_name f.path) = none := by
    cases hd : dict_get_unit (live_filtered units type_set matchesAny)
        (basename_or_name f.path) with
    | none => rfl
    | some u =>
      exfalso
      rcases List.getLast?_eq_some_iff.mp hd with ⟨ys, hys⟩
      have hu : u ∈ (live_filtered units type_set matchesAny).filter
          (fun u => decide (u.name = basename_or_name f.path)) := by
        rw [hys]
        exact List.mem_append_right _ (by simp)
      rcases List.mem_filter.mp hu with ⟨hu1, hu2⟩
      rcases List.mem_filter.mp hu1 with ⟨hu3, hu4⟩
      exact hnl u hu3 hu4 (of_decide_eq_true hu2)
  refine ⟨hout, emit_status_name _ _ _, ?_, ?_, ?_⟩ <;>
    simp [emit_status, hnone]

/-- C4 witness: a disabled, installed-only service on empty live listings. -/
theorem match_units_installed_only_witness :
    emit_status (live_filtered [] ["service"] (fun _ => true))
        (file_entries [{ path := "/lib/systemd/system/b.service", state := "disabled" }]
          ["service"] (fun _ => true) true) "b.service" ∈
      match_units [] [{ path := "/lib/systemd/system/b.service", state := "disabled" }]
        (fun _ => true) ["service"] true ∧
    (emit_status (live_filtered [] ["service"] (fun _ => true))
        (file_entries [{ path := "/lib/systemd/system/b.service", state := "disabled" }]
          ["service"] (fun _ => true) true) "b.service").name = "b.service" ∧
    (emit_status (live_filtered [] ["service"] (fun _ => true))
        (file_entries [{ path := "/lib/systemd/system/b.service", state := "disabled" }]
          ["service"] (fun _ => true) true) "b.service").active_state = "inactive" ∧
    (emit_status (live_filtered [] ["service"] (fun _ => true))
        (file_entries [{ path := "/lib/systemd/system/b.service", state := "disabled" }]
          ["service"] (fun _ => true) true) "b.service").sub_state = "dead" ∧
    (emit_status (live_filtered [] ["service"] (fun _ => true))
        (file_entries [{ path := "/lib/systemd/system/b.service", state := "disabled" }]
          ["service"] (fun _ => true) true) "b.service").load_state = none :=
  match_units_installed_only [] [{ path := "/lib/systemd/system/b.service", state := "disabled" }]
    (fun _ => true) ["service"] { path := "/lib/systemd/system/b.service", state := "disabled" }
    "b.service" (by simp) (by decide) (by decide) (by intro u hu; cases hu)

/-- C2: polling wait on a `stop` job, once the job object has disappeared,
reports success iff the target unit's final active-state is `"inactive"` or
`"failed"`; for any other final state — `"active"` in particular — it yields
`"failed"`, or raises `JobFailedError` when `raise_on_fail` is set. -/
theorem wait_job_poll_stop_spec (bus : Bus) (jw : JobWorld) (job_path : String)
    (hasDeadline raise_on_fail : Bool) (fuel : Nat) (u st : String)
    (hjt : jw.jobType = .ok "stop")
    (hju : jw.jobUnit = .ok u)
    (hloop : poll_loop jw hasDeadline job_path fuel 0 = .finished)
    (hst : active_state bus u (some "inactive") = .ok st) :
    (wait_job_poll bus jw job_path hasDeadline raise_on_fail fuel = some (.ok "done") ↔
      (st = "inactive" ∨ st = "failed")) ∧
    (¬(st = "inactive" ∨ st = "failed") →
      wait_job_poll bus jw job_path hasDeadline raise_on_fail fuel =
        some (if raise_on_fail then
          .error (.jobFailedError ("job " ++ job_path ++ " result=failed"))
        else .ok "failed")) := by
  have hfs : final_state bus u = st := by
    unfold final_state
    rw [hst]
  have heval : wait_eval bus "stop" u = .ok (st == "inactive" || st == "failed") := by
    simp only [wait_eval]
    rw [hfs]
    rfl
  simp only [wait_job_poll, hjt, hju, hloop, heval]
  by_cases hd : st = "inactive" ∨ st = "failed"
  · have hb : (st == "inactive" || st == "failed") = true := by
      rcases hd with h | h <;> simp [h]
    rw [hb]
    exact ⟨iff_of_true rfl hd, fun h => absurd hd h⟩
  · rcases not_or.mp hd with ⟨h1, h2⟩
    have hb : (st == "inactive" || st == "failed") = false := by
      rw [Bool.or_eq_false_iff]
      exact ⟨beq_eq_false_iff_ne.mpr h1, beq_eq_false_iff_ne.mpr h2⟩
    rw [hb]
    refine ⟨iff_of_false ?_ hd, fun _ => rfl⟩
    cases raise_on_fail <;> simp
/-- C2 witness: final state `"active"` after a stop job gives `"failed"`. -/
theorem wait_job_poll_stop_witness :
    active_state activeUnitBus "a.service" (some "inactive") = .ok "active" ∧
    wait_job_poll activeUnitBus (vanishingJob "stop") "/js" false false 1 =
      some (.ok "failed") := by
  refine ⟨by decide, ?_⟩
  have h := (wait_job_poll_stop_spec activeUnitBus (vanishingJob "stop") "/js" false false 1
    "a.service" "active" rfl rfl (by decide) (by decide)).2 (by decide)
  exact h

/-- C3: polling wait on a non-stop job whose target unit ends not `"active"`
and is a `oneshot` service reports `"done"` iff the recorded `ExecMainStatus`
is zero; a non-zero exit status yields `"failed"` (or raises) even when the
unit's active-state is not `"failed"`. -/
theorem wait_job_poll_oneshot_spec (bus : Bus) (jw : JobWorld) (job_path : String)
    (hasDeadline raise_on_fail : Bool) (fuel : Nat) (jt u st p : String) (n : Int)
    (hjt : jw.jobType = .ok jt) (hne : jt ≠ "stop")
    (hju : jw.jobUnit = .ok u)
    (hloop : poll_loop jw hasDeadline job_path fuel 0 = .finished)
    (hst : active_state bus u (some "inactive") = .ok st) (hna : st ≠ "active")
    (hpath : get_unit_path bus u = .ok p)
    (hT : bus.serviceProp p "Type" = .ok (.s "oneshot"))
    (hE : bus.serviceProp p "ExecMainStatus" = .ok (.i n)) :
    (wait_job_poll bus jw job_path hasDeadline raise_on_fail fuel = some (.ok "done") ↔
      n = 0) ∧
    (n ≠ 0 →
      wait_job_poll bus jw job_path hasDeadline raise_on_fail fuel =
        some (if raise_on_fail then
          .error (.jobFailedError ("job " ++ job_path ++ " result=failed"))
        else .ok "failed")) := by
  have hfs : final_state bus u = st := by
    unfold final_state
    rw [hst]
  have hsp : get_service_properties bus u ["Type", "ExecMainStatus"] =
      .ok [("Type", .s "oneshot"), ("ExecMainStatus", .i n)] := by
    unfold get_service_properties
    rw [hpath]
    simp only [List.foldl_cons, List.foldl_nil, hT, hE]
    rfl
  have heval : wait_eval bus jt u = .ok (n == 0) := by
    simp only [wait_eval]
    rw [hfs, if_neg (fun hc => hne (eq_of_beq hc)), if_neg (fun hc => hna (eq_of_beq hc)),
      hsp]
    rfl
  simp only [wait_job_poll, hjt, hju, hloop, heval]
  by_cases hz : n = 0
  · have hb : (n == 0) = true := by simp [hz]
    rw [hb]
    exact ⟨iff_of_true rfl hz, fun h => absurd hz h⟩
  · have hb : (n == 0) = false := beq_eq_false_iff_ne.mpr hz
    rw [hb]
    refine ⟨iff_of_false ?_ hz, fun _ => rfl⟩
    cases raise_on_fail <;> simp
/-- C3 witness: a oneshot unit with exit status `3` gives `"failed"` even
though its final active-state is `"inactive"`, not `"failed"`. -/
theorem wait_job_poll_oneshot_witness :
    wait_job_poll (oneshotBus 3) (vanishingJob "start") "/jo" false false 1 =
      some (.ok "failed") := by
  have h := (wait_job_poll_oneshot_spec (oneshotBus 3) (vanishingJob "start") "/jo"
    false false 1 "start" "a.service" "inactive" "/u" 3
    rfl (by decide) rfl (by decide) (by decide) (by decide) (by decide) rfl rfl).2
    (by decide)
  exact h

/-- C7 (amended): with `raise_on_fail = false`, job-level failure and timeout
come back as the strings `"failed"` / `"timeout-wait"` instead of raising —
in both strategies; a fault in the initial job-property read or in the poll
loop itself always propagates as a raised (mapped) error; but a typed fault
raised while reading the target unit's *final* active-state is swallowed by
the polling strategy, which proceeds with final state `"failed"`. -/
theorem wait_job_poll_error_policy (bus : Bus) (jw jw2 : JobWorld) (job_path : String)
    (hasDeadline raise_on_fail : Bool) (fuel : Nat) (jt u : String)
    (hjt : jw.jobType = .ok jt) (hju : jw.jobUnit = .ok u) :
    (poll_loop jw hasDeadline job_path fuel 0 = .timeout →
      wait_job_poll bus jw job_path hasDeadline false fuel = some (.ok "timeout-wait")) ∧
    (∀ err, poll_loop jw hasDeadline job_path fuel 0 = .fault err →
      wait_job_poll bus jw job_path hasDeadline raise_on_fail fuel = some (.error err)) ∧
    (poll_loop jw hasDeadline job_path fuel 0 = .finished →
      wait_eval bus jt u = .ok false →
      wait_job_poll bus jw job_path hasDeadline false fuel = some (.ok "failed")) ∧
    (∀ e, jw2.jobType = .error e →
      wait_job_poll bus jw2 job_path hasDeadline raise_on_fail fuel =
        some (.error (map_dbus_error e ("JobProps(" ++ job_path ++ ")")))) ∧
    (∀ e, active_state bus u (some "inactive") = .error e →
      final_state bus u = "failed") ∧
    wait_job_result (some "canceled") job_path false = .ok "failed" := by
  refine ⟨?_, ?_, ?_, ?_, ?_, rfl⟩
  · intro h
    simp only [wait_job_poll, hjt, hju, h]
    rfl
  · intro err h
    simp only [wait_job_poll, hjt, hju, h]
  · intro h1 h2
    simp only [wait_job_poll, hjt, hju, h1, h2]
    rfl
  · intro e h
    simp only [wait_job_poll, h]
  · intro e h
    unfold final_state
    rw [h]

/-- C7 counterexample: with `raise_on_fail = false`, a transport fault while
reading the target unit's final state is not raised and not reported: the
polling wait on this stop job returns `"done"` although `active_state`
faulted with `DBusIOError`. -/
theorem wait_job_poll_transport_swallowed_counterexample :
    active_state transportBus "a.service" (some "inactive") =
      .error (.dbusIOError "LoadUnit(a.service): no reply") ∧
    wait_job_poll transportBus (vanishingJob "stop") "/j" false false 1 =
      some (.ok "done") :=
  ⟨by decide, by decide⟩

/-- C7 witness: timeout returned as a string; a poll-loop transport fault
raised as an error. -/
theorem wait_job_poll_error_policy_witness :
    wait_job_poll transportBus stuckJob "/jt" true false 1 = some (.ok "timeout-wait") ∧
    wait_job_poll transportBus faultingJob "/jf" false false 1 =
      some (.error (.dbusIOError "JobPoll(/jf): lost")) := by
  constructor
  · exact (wait_job_poll_error_policy transportBus stuckJob stuckJob "/jt" true false 1
      "start" "a.service" rfl rfl).1 (by decide)
  · exact (wait_job_poll_error_policy transportBus faultingJob faultingJob "/jf" false false 1
      "start" "a.service" rfl rfl).2.1 (.dbusIOError "JobPoll(/jf): lost") (by decide)

end Systemd
